import Mathlib

/-!
Verification of the URL-shortener link store against its specification.

The data model is embedded from `src/database/models.py` (tables `links`
and `click_events`, with their uniqueness, nullability and cascade-delete
constraints), the health-check code from `src/database/database.py`,
`src/health.py` and `main.py`, and the seeding data and logic from
`scripts/seed_db.py`.  The store operations (create / resolve / disable /
enable / update_url / delete / record / aggregator queries) are not present
in the repository source; they are modelled from the specification
(sections 4.1-4.5) and marked as such in their doc comments.

Timestamps are modelled as seconds (`Nat`); UUIDs as `Nat` identifiers;
SQL `NULL`-able text columns as `Option String`.
-/

/-- A row of the `links` table (`src/database/models.py`, class `Link`):
`id` UUID primary key, `short_code` unique non-null `String(32)`,
`original_url` non-null text, `is_active` / `is_custom_code` booleans,
`created_at` / `updated_at` server-set timestamps. -/
structure Link where
  id : Nat
  short_code : String
  original_url : String
  is_active : Bool
  is_custom_code : Bool
  created_at : Nat
  updated_at : Nat
deriving Repr, DecidableEq

/-- A row of the `click_events` table (`src/database/models.py`, class
`ClickEvent`): `id` UUID primary key, `link_id` non-null foreign key to
`links.id` with `ondelete="CASCADE"`, `clicked_at` timestamp, nullable
`ip_address` and `user_agent`. -/
structure ClickEvent where
  id : Nat
  link_id : Nat
  clicked_at : Nat
  ip_address : Option String
  user_agent : Option String
deriving Repr, DecidableEq

/-- The two tables of the backing store. -/
structure DB where
  links : List Link
  clickEvents : List ClickEvent
deriving Repr, DecidableEq

/-- Error kinds of the store (spec section 7; `IntegrityError` is the
backing store's constraint-violation error surfaced by SQLAlchemy). -/
inductive StoreError where
  | validationError
  | conflictError
  | notFoundError
  | integrityError
deriving Repr, DecidableEq

/-- Does some stored link carry this short code?  (Backs the `unique=True`
constraint on `links.short_code`.) -/
def hasCode (db : DB) (code : String) : Bool :=
  db.links.any (fun l => l.short_code == code)

/-- Does some stored link carry this id?  (Backs the primary-key constraint
on `links.id` and the foreign-key constraint on `click_events.link_id`.) -/
def hasId (db : DB) (i : Nat) : Bool :=
  db.links.any (fun l => l.id == i)

/-- Schema-level insert into `links`, enforcing the primary-key constraint
on `id` and the `unique=True` constraint on `short_code`
(`src/database/models.py` lines 46-58); a violation is the backing store's
integrity error. -/
def insertLink (db : DB) (l : Link) : Except StoreError DB :=
  if hasCode db l.short_code || hasId db l.id then
    .error .integrityError
  else
    .ok { db with links := db.links ++ [l] }

/-- Schema-level insert into `click_events`, enforcing the primary-key
constraint on `id` and the `ForeignKey("links.id")` non-null constraint on
`link_id` (`src/database/models.py` lines 123-135; `PRAGMA foreign_keys=ON`
is set in `src/database/database.py`). -/
def insertClickEvent (db : DB) (e : ClickEvent) : Except StoreError DB :=
  if db.clickEvents.any (fun x => x.id == e.id) || !(hasId db e.link_id) then
    .error .integrityError
  else
    .ok { db with clickEvents := db.clickEvents ++ [e] }

/-- Modelled from the spec: the short-code charset rule of section 3
({A-Z, a-z, 0-9, hyphen, underscore}); no validation code exists under
`src/`, only the documented rule. -/
def shortCodeCharOk (c : Char) : Bool :=
  c.isAlpha || c.isDigit || c == '-' || c == '_'

/-- Modelled from the spec: the short-code format rule of section 3
(3-32 characters over the charset); no validation code exists under `src/`. -/
def validShortCode (s : String) : Bool :=
  decide (3 ≤ s.length) && decide (s.length ≤ 32) && s.toList.all shortCodeCharOk

/-- Modelled from the spec: the Link Store `create` operation (section 4.2)
is absent from `src/`; it validates `original_url` non-empty and the
short-code format, then inserts relying on the backing store's unique
constraint, mapping a constraint violation to `ConflictError`. -/
def create (db : DB) (newId : Nat) (code url : String) (custom : Bool)
    (now : Nat) : Except StoreError (DB × Link) :=
  if url == "" then .error .validationError
  else if !(validShortCode code) then .error .validationError
  else
    match insertLink db ⟨newId, code, url, true, custom, now, now⟩ with
    | .ok db2 => .ok (db2, ⟨newId, code, url, true, custom, now, now⟩)
    | .error _ => .error .conflictError

/-- Modelled from the spec: the Link Store `resolve` operation
(section 4.2) is absent from `src/`; it returns the link whose
`short_code` matches, whether or not it `is_active`. -/
def resolve (db : DB) (code : String) : Except StoreError Link :=
  match db.links.find? (fun l => l.short_code == code) with
  | some l => .ok l
  | none => .error .notFoundError

/-- Row update applied by disable/enable: flip `is_active`, bump
`updated_at` (the `onupdate=func.now()` of `models.py` line 88). -/
def applySetActive (i : Nat) (b : Bool) (now : Nat) (l : Link) : Link :=
  if l.id == i then
    { l with is_active := b, updated_at := now }
  else l

/-- Modelled from the spec: the Link Store `disable`/`enable` operations
(section 4.2) are absent from `src/`; they flip `is_active` and bump
`updated_at`, failing with `NotFoundError` when the id is unknown. -/
def setActive (db : DB) (i : Nat) (b : Bool) (now : Nat) :
    Except StoreError (DB × Link) :=
  match db.links.find? (fun l => l.id == i) with
  | none => .error .notFoundError
  | some l0 =>
      .ok ({ db with links := db.links.map (applySetActive i b now) },
           { l0 with is_active := b, updated_at := now })

/-- Modelled from the spec: `disable(id)` (section 4.2). -/
def disable (db : DB) (i : Nat) (now : Nat) : Except StoreError (DB × Link) :=
  setActive db i false now

/-- Modelled from the spec: `enable(id)` (section 4.2). -/
def enable (db : DB) (i : Nat) (now : Nat) : Except StoreError (DB × Link) :=
  setActive db i true now

/-- Row update applied by `update_url`: replace `original_url`, bump
`updated_at`. -/
def applyUpdateUrl (i : Nat) (newUrl : String) (now : Nat) (l : Link) : Link :=
  if l.id == i then
    { l with original_url := newUrl, updated_at := now }
  else l

/-- Modelled from the spec: the Link Store `update_url` operation
(section 4.2) is absent from `src/`; it validates the new URL non-empty,
leaves `short_code` and identity untouched, and bumps `updated_at`. -/
def update_url (db : DB) (i : Nat) (newUrl : String) (now : Nat) :
    Except StoreError (DB × Link) :=
  if newUrl == "" then .error .validationError
  else
    match db.links.find? (fun l => l.id == i) with
    | none => .error .notFoundError
    | some l0 =>
        .ok ({ db with links := db.links.map (applyUpdateUrl i newUrl now) },
             { l0 with original_url := newUrl, updated_at := now })

/-- Modelled from the spec: the Link Store `delete` operation
(section 4.2) is absent from `src/`; it removes the link and cascades to
its click events in the same atomic unit, per the `ondelete="CASCADE"` of
`models.py` line 131 and the relationship cascade of lines 93-98. -/
def delete (db : DB) (i : Nat) : Except StoreError DB :=
  if hasId db i then
    .ok { links := db.links.filter (fun l => !(l.id == i)),
          clickEvents := db.clickEvents.filter (fun e => !(e.link_id == i)) }
  else .error .notFoundError

/-- Modelled from the spec: the Click Recorder `record` operation
(section 4.3) is absent from `src/`; `clicked_at` is server-assigned from
the recorder's clock (`now`), the caller supplies no timestamp, and
`ip`/`user_agent` may both be absent. -/
def record (db : DB) (newId : Nat) (linkId : Nat)
    (ip ua : Option String) (now : Nat) : Except StoreError (DB × ClickEvent) :=
  match insertClickEvent db ⟨newId, linkId, now, ip, ua⟩ with
  | .ok db2 => .ok (db2, ⟨newId, linkId, now, ip, ua⟩)
  | .error err => .error err

/-- Modelled from the spec: the Analytics Aggregator total-count query
(section 4.4) is absent from `src/`. -/
def clickCount (db : DB) (linkId : Nat) : Nat :=
  (db.clickEvents.filter (fun e => e.link_id == linkId)).length

/-- Insert a click event into a list sorted by descending `clicked_at`. -/
def insertByTime (e : ClickEvent) : List ClickEvent → List ClickEvent
  | [] => [e]
  | x :: xs =>
      if x.clicked_at ≤ e.clicked_at then e :: x :: xs
      else x :: insertByTime e xs

/-- Sort click events by descending `clicked_at` (insertion sort). -/
def sortByTimeDesc : List ClickEvent → List ClickEvent
  | [] => []
  | x :: xs => insertByTime x (sortByTimeDesc xs)

/-- Modelled from the spec: the Analytics Aggregator most-recent-N query
(section 4.4) is absent from `src/`; nullable fields pass through as
stored (absent stays absent). -/
def recentClicks (db : DB) (linkId : Nat) (n : Nat) : List ClickEvent :=
  (sortByTimeDesc (db.clickEvents.filter (fun e => e.link_id == linkId))).take n

/-- States of the store reachable from the empty database through the
schema-level inserts and the store operations. -/
inductive Reachable : DB → Prop where
  | empty : Reachable ⟨[], []⟩
  | insertLink {db db2 l} : Reachable db →
      insertLink db l = .ok db2 → Reachable db2
  | insertClickEvent {db db2 e} : Reachable db →
      insertClickEvent db e = .ok db2 → Reachable db2
  | create {db db2 l i c u b now} : Reachable db →
      create db i c u b now = .ok (db2, l) → Reachable db2
  | setActive {db db2 l i b now} : Reachable db →
      setActive db i b now = .ok (db2, l) → Reachable db2
  | update_url {db db2 l i u now} : Reachable db →
      update_url db i u now = .ok (db2, l) → Reachable db2
  | delete {db db2 i} : Reachable db →
      delete db i = .ok db2 → Reachable db2
  | record {db db2 e i lid ip ua now} : Reachable db →
      record db i lid ip ua now = .ok (db2, e) → Reachable db2

/-- All stored short codes are pairwise distinct (the `unique=True`
constraint of `models.py` line 54). -/
def uniqueCodes (db : DB) : Prop :=
  db.links.Pairwise (fun a b => a.short_code ≠ b.short_code)

/-- Every click event references an existing link (the foreign-key
constraint of `models.py` lines 129-135). -/
def refIntegrity (db : DB) : Prop :=
  ∀ e ∈ db.clickEvents, ∃ l, l ∈ db.links ∧ l.id = e.link_id

/-! ## Health checks (`src/database/database.py`, `src/health.py`, `main.py`)

The backing store's behaviour on the `SELECT 1` probe is modelled as an
`Except String Unit`: `ok` when the round trip succeeds, `error msg` when
the driver raises.  A Redis client is modelled by the outcome of its
`ping`; `none` means no client is configured. -/

/-- `health_check` from `src/database/database.py` lines 106-117: run
`SELECT 1`; return `True` on success and `False` on any exception. -/
def health_check (select1 : Except String Unit) : Bool :=
  match select1 with
  | .ok _ => true
  | .error _ => false

/-- `check_database` from `src/health.py` lines 16-18: delegates to the
database module's `health_check`. -/
def check_database (select1 : Except String Unit) : Bool :=
  health_check select1

/-- An async Redis client, reduced to the outcome of its `ping`. -/
structure RedisClient where
  ping : Except String Unit
deriving Repr

/-- `check_redis` from `src/health.py` lines 26-39: `True` when no client
is configured, otherwise `True` exactly when `ping` does not raise. -/
def check_redis (redis_client : Option RedisClient) : Bool :=
  match redis_client with
  | none => true
  | some c =>
      match c.ping with
      | .ok _ => true
      | .error _ => false

/-- Application version string (`src/health.py` line 13). -/
def VERSION : String := "1.0.0"

/-- The health-check response body (`src/health.py`): overall status,
version, and the component -> "ok"/"error" check map (the ISO timestamp
field carries no logic and is modelled as the clock value). -/
structure HealthReport where
  status : String
  version : String
  timestamp : Nat
  checks : List (String × String)
deriving Repr, DecidableEq

/-- `get_health_status_async` from `src/health.py` lines 82-105: always
performs the database check; performs and reports the Redis check only
when a client is configured; overall status is `"healthy"` exactly when
all recorded checks are `"ok"`, else `"degraded"`. -/
def get_health_status_async (select1 : Except String Unit)
    (redis_client : Option RedisClient) (now : Nat) : HealthReport :=
  let db_ok := check_database select1
  let checks0 := [("database", if db_ok then "ok" else "error")]
  let redis_ok := check_redis redis_client
  let checks :=
    match redis_client with
    | some _ => checks0 ++ [("redis", if redis_ok then "ok" else "error")]
    | none => checks0
  let overall :=
    if checks.all (fun p => p.2 == "ok") then "healthy" else "degraded"
  ⟨overall, VERSION, now, checks⟩

/-- The `/health` endpoint from `main.py` lines 48-63: HTTP 200 when the
payload status is `"healthy"`, HTTP 503 otherwise. -/
def healthEndpointStatusCode (select1 : Except String Unit)
    (redis_client : Option RedisClient) (now : Nat) : Nat :=
  if (get_health_status_async select1 redis_client now).status == "healthy"
  then 200 else 503

/-! ## Seed data and seeding logic (`scripts/seed_db.py`)

`_utc(days_ago, hours_ago)` is `now - days*86400 - hours*3600` in seconds.
Link ids stand in for the generated UUIDs, numbered in insertion order;
click-event ids are numbered from 100. -/

/-- The `LINKS` seed list of `scripts/seed_db.py` lines 25-125, at server
time `now`: twelve links, ten active (five custom-code, five generated)
and two inactive, with backdated `created_at`/`updated_at`. -/
def seedLinkData (now : Nat) : List Link :=
  [⟨0, "gh", "https://github.com", true, true,
     now - 30 * 86400, now - 30 * 86400⟩,
   ⟨1, "docs", "https://docs.python.org/3/", true, true,
     now - 25 * 86400, now - 25 * 86400⟩,
   ⟨2, "yt", "https://www.youtube.com", true, true,
     now - 20 * 86400, now - 20 * 86400⟩,
   ⟨3, "so", "https://stackoverflow.com/questions", true, true,
     now - 18 * 86400, now - 18 * 86400⟩,
   ⟨4, "sa-promo", "https://www.amazon.com/deals/storefront?tag=example-20",
     true, true, now - 10 * 86400, now - 10 * 86400⟩,
   ⟨5, "x7q2p",
     "https://www.bbc.com/news/technology/article/2026-ai-breakthrough",
     true, false, now - 15 * 86400, now - 15 * 86400⟩,
   ⟨6, "m3nkR",
     "https://medium.com/@dev/building-a-url-shortener-with-fastapi-abc123",
     true, false, now - 12 * 86400, now - 12 * 86400⟩,
   ⟨7, "Zp9wL", "https://www.npmjs.com/package/zod", true, false,
     now - 8 * 86400, now - 8 * 86400⟩,
   ⟨8, "t4Rqx", "https://docs.sqlalchemy.org/en/20/orm/quickstart.html",
     true, false, now - 5 * 86400, now - 5 * 86400⟩,
   ⟨9, "Kw2vN", "https://hub.docker.com/_/postgres", true, false,
     now - 3 * 86400, now - 3 * 86400⟩,
   ⟨10, "old-sale", "https://www.example.com/promo/blackfriday-2024",
     false, true, now - 90 * 86400, now - 60 * 86400⟩,
   ⟨11, "qX5mY", "https://pastebin.com/raw/deprecated-snippet",
     false, false, now - 45 * 86400, now - 20 * 86400⟩]

/-- The `CLICK_EVENTS` seed list of `scripts/seed_db.py` lines 128-164:
tuples of (short_code, hours_ago, ip_address, user_agent); the final
`t4Rqx` entry has null IP and user agent. -/
def seedClickData : List (String × Nat × Option String × Option String) :=
  [("gh", 1, some "203.0.113.42",
    some "Mozilla/5.0 (Windows NT 10.0; Win64; x64) AppleWebKit/537.36 (KHTML, like Gecko) Chrome/121.0.0.0 Safari/537.36"),
   ("gh", 3, some "198.51.100.7",
    some "Mozilla/5.0 (Macintosh; Intel Mac OS X 10_15_7) AppleWebKit/605.1.15 (KHTML, like Gecko) Version/17.2 Safari/605.1.15"),
   ("gh", 6, some "192.0.2.88",
    some "Mozilla/5.0 (X11; Linux x86_64; rv:122.0) Gecko/20100101 Firefox/122.0"),
   ("gh", 12, some "2001:db8::1",
    some "Mozilla/5.0 (iPhone; CPU iPhone OS 17_2 like Mac OS X) AppleWebKit/605.1.15 (KHTML, like Gecko) Version/17.2 Mobile/15E148 Safari/604.1"),
   ("gh", 18, some "203.0.113.5", some "curl/8.4.0"),
   ("gh", 24, some "198.51.100.22",
    some "Mozilla/5.0 (Windows NT 10.0; Win64; x64) AppleWebKit/537.36 (KHTML, like Gecko) Chrome/121.0.0.0 Safari/537.36"),
   ("gh", 30, some "192.0.2.10", some "python-httpx/0.26.0"),
   ("docs", 2, some "203.0.113.99",
    some "Mozilla/5.0 (Macintosh; Intel Mac OS X 10_15_7) AppleWebKit/537.36 (KHTML, like Gecko) Chrome/121.0.0.0 Safari/537.36"),
   ("docs", 8, some "198.51.100.3",
    some "Mozilla/5.0 (X11; Ubuntu; Linux x86_64; rv:122.0) Gecko/20100101 Firefox/122.0"),
   ("docs", 20, some "192.0.2.55",
    some "Mozilla/5.0 (Windows NT 10.0; Win64; x64; rv:122.0) Gecko/20100101 Firefox/122.0"),
   ("yt", 1, some "203.0.113.17",
    some "Mozilla/5.0 (iPhone; CPU iPhone OS 17_2 like Mac OS X) AppleWebKit/605.1.15 (KHTML, like Gecko) Version/17.2 Mobile/15E148 Safari/604.1"),
   ("yt", 4, some "198.51.100.44",
    some "Mozilla/5.0 (Linux; Android 14; Pixel 8) AppleWebKit/537.36 (KHTML, like Gecko) Chrome/121.0.6167.144 Mobile Safari/537.36"),
   ("yt", 10, some "192.0.2.200",
    some "Mozilla/5.0 (Windows NT 10.0; Win64; x64) AppleWebKit/537.36 (KHTML, like Gecko) Chrome/121.0.0.0 Safari/537.36"),
   ("sa-promo", 1, some "203.0.113.50",
    some "Mozilla/5.0 (Windows NT 10.0; Win64; x64) AppleWebKit/537.36 (KHTML, like Gecko) Chrome/121.0.0.0 Safari/537.36"),
   ("sa-promo", 1, some "198.51.100.71",
    some "Mozilla/5.0 (Macintosh; Intel Mac OS X 10_15_7) AppleWebKit/605.1.15 (KHTML, like Gecko) Version/17.2 Safari/605.1.15"),
   ("sa-promo", 2, some "192.0.2.130",
    some "Mozilla/5.0 (iPhone; CPU iPhone OS 17_2 like Mac OS X) AppleWebKit/605.1.15 (KHTML, like Gecko) Version/17.2 Mobile/15E148 Safari/604.1"),
   ("sa-promo", 2, some "203.0.113.88",
    some "Mozilla/5.0 (Linux; Android 14; SM-S918B) AppleWebKit/537.36 (KHTML, like Gecko) Chrome/121.0.6167.144 Mobile Safari/537.36"),
   ("sa-promo", 3, some "198.51.100.9",
    some "Mozilla/5.0 (Windows NT 10.0; Win64; x64) AppleWebKit/537.36 (KHTML, like Gecko) Chrome/121.0.0.0 Safari/537.36"),
   ("x7q2p", 5, some "192.0.2.77",
    some "Mozilla/5.0 (Macintosh; Intel Mac OS X 10_15_7) AppleWebKit/537.36 (KHTML, like Gecko) Chrome/121.0.0.0 Safari/537.36"),
   ("x7q2p", 14, some "203.0.113.33",
    some "Mozilla/5.0 (X11; Linux x86_64; rv:122.0) Gecko/20100101 Firefox/122.0"),
   ("m3nkR", 7, some "198.51.100.60",
    some "Mozilla/5.0 (Windows NT 10.0; Win64; x64) AppleWebKit/537.36 (KHTML, like Gecko) Chrome/121.0.0.0 Safari/537.36"),
   ("Zp9wL", 2, some "192.0.2.44", some "curl/8.4.0"),
   ("Zp9wL", 9, some "203.0.113.21",
    some "Mozilla/5.0 (X11; Linux x86_64) AppleWebKit/537.36 (KHTML, like Gecko) Chrome/121.0.0.0 Safari/537.36"),
   ("old-sale", 80 * 24, some "198.51.100.15",
    some "Mozilla/5.0 (Windows NT 10.0; Win64; x64) AppleWebKit/537.36 (KHTML, like Gecko) Chrome/118.0.0.0 Safari/537.36"),
   ("old-sale", 85 * 24, some "192.0.2.66",
    some "Mozilla/5.0 (Macintosh; Intel Mac OS X 10_15_7) AppleWebKit/605.1.15 (KHTML, like Gecko) Version/16.6 Safari/605.1.15"),
   ("t4Rqx", 1, none, none)]

/-- Link-seeding pass of `seed()` (`scripts/seed_db.py` lines 175-187):
for each entry, skip it when a link with that short code already exists,
otherwise add the row. -/
def addSeedLinks (db : DB) (ls : List Link) : DB :=
  ls.foldl
    (fun acc l =>
      if hasCode acc l.short_code then acc
      else { acc with links := acc.links ++ [l] })
    db

/-- Click-seeding pass of `seed()` (`scripts/seed_db.py` lines 189-201):
for each tuple, look the link up by short code (skip unknown codes) and
add a click event whose `clicked_at` is the caller-computed backdated
time `now - hours_ago * 3600`. -/
def addSeedClicks (db : DB) (nextId : Nat) (now : Nat) :
    List (String × Nat × Option String × Option String) → DB
  | [] => db
  | (code, hoursAgo, ip, ua) :: rest =>
      match db.links.find? (fun l => l.short_code == code) with
      | none => addSeedClicks db nextId now rest
      | some l =>
          addSeedClicks
            { db with clickEvents :=
                db.clickEvents ++ [⟨nextId, l.id, now - hoursAgo * 3600, ip, ua⟩] }
            (nextId + 1) now rest

/-- `seed()` from `scripts/seed_db.py` lines 171-212 run against an empty
database at server time `now`: insert the links, then the click events. -/
def seed (now : Nat) : DB :=
  addSeedClicks (addSeedLinks ⟨[], []⟩ (seedLinkData now)) 100 now seedClickData

/-! ## Helper lemmas -/

lemma code_ne_of_hasCode_eq_false {db : DB} {c : String}
    (h : hasCode db c = false) : ∀ l ∈ db.links, l.short_code ≠ c := by
  intro l hl hc
  simp only [hasCode, List.any_eq_false] at h
  exact h l hl (by simp [hc])

lemma exists_of_hasId_eq_true {db : DB} {i : Nat} (h : hasId db i = true) :
    ∃ l, l ∈ db.links ∧ l.id = i := by
  simp only [hasId, List.any_eq_true] at h
  obtain ⟨l, hl, hid⟩ := h
  exact ⟨l, hl, by simpa using hid⟩

lemma insertLink_ok {db db2 : DB} {l : Link}
    (h : insertLink db l = .ok db2) :
    db2.links = db.links ++ [l] ∧ db2.clickEvents = db.clickEvents ∧
      hasCode db l.short_code = false ∧ hasId db l.id = false := by
  unfold insertLink at h
  split at h
  · exact absurd h (by simp)
  · rename_i hcond
    simp only [Bool.or_eq_true, not_or] at hcond
    obtain ⟨h1, h2⟩ := hcond
    cases h
    exact ⟨rfl, rfl, by simpa using h1, by simpa using h2⟩

lemma insertClickEvent_ok {db db2 : DB} {e : ClickEvent}
    (h : insertClickEvent db e = .ok db2) :
    db2.links = db.links ∧ db2.clickEvents = db.clickEvents ++ [e] ∧
      hasId db e.link_id = true := by
  unfold insertClickEvent at h
  split at h
  · exact absurd h (by simp)
  · rename_i hcond
    simp only [Bool.or_eq_true, not_or, Bool.not_eq_true] at hcond
    cases h
    exact ⟨rfl, rfl, by simpa using hcond.2⟩

lemma create_ok {db db2 : DB} {l : Link} {i : Nat} {c u : String} {b : Bool}
    {now : Nat} (h : create db i c u b now = .ok (db2, l)) :
    l = ⟨i, c, u, true, b, now, now⟩ ∧ insertLink db l = .ok db2 ∧
      (u = "" → False) ∧ validShortCode c = true := by
  unfold create at h
  split at h
  · exact absurd h (by simp)
  · rename_i hu
    split at h
    · exact absurd h (by simp)
    · rename_i hv
      split at h
      · rename_i db3 hins
        cases h
        refine ⟨rfl, hins, ?_, ?_⟩
        · intro he; simp [he] at hu
        · simpa using hv
      · exact absurd h (by simp)

lemma setActive_ok {db db2 : DB} {l : Link} {i : Nat} {b : Bool} {now : Nat}
    (h : setActive db i b now = .ok (db2, l)) :
    ∃ l0, db.links.find? (fun x => x.id == i) = some l0 ∧
      l = { l0 with is_active := b, updated_at := now } ∧
      db2.links = db.links.map (applySetActive i b now) ∧
      db2.clickEvents = db.clickEvents := by
  unfold setActive at h
  split at h
  · exact absurd h (by simp)
  · rename_i l0 hfind
    cases h
    exact ⟨l0, hfind, rfl, rfl, rfl⟩

lemma update_url_ok {db db2 : DB} {l : Link} {i : Nat} {u : String} {now : Nat}
    (h : update_url db i u now = .ok (db2, l)) :
    ∃ l0, db.links.find? (fun x => x.id == i) = some l0 ∧
      l = { l0 with original_url := u, updated_at := now } ∧
      db2.links = db.links.map (applyUpdateUrl i u now) ∧
      db2.clickEvents = db.clickEvents := by
  unfold update_url at h
  split at h
  · exact absurd h (by simp)
  · split at h
    · exact absurd h (by simp)
    · rename_i l0 hfind
      cases h
      exact ⟨l0, hfind, rfl, rfl, rfl⟩

lemma delete_ok {db db2 : DB} {i : Nat} (h : delete db i = .ok db2) :
    db2.links = db.links.filter (fun l => !(l.id == i)) ∧
      db2.clickEvents = db.clickEvents.filter (fun e => !(e.link_id == i)) ∧
      hasId db i = true := by
  unfold delete at h
  split at h
  · rename_i hcond
    cases h
    exact ⟨rfl, rfl, hcond⟩
  · exact absurd h (by simp)

lemma record_ok {db db2 : DB} {e : ClickEvent} {nid lid : Nat}
    {ip ua : Option String} {now : Nat}
    (h : record db nid lid ip ua now = .ok (db2, e)) :
    e = ⟨nid, lid, now, ip, ua⟩ ∧ db2.links = db.links ∧
      db2.clickEvents = db.clickEvents ++ [e] ∧ hasId db lid = true := by
  unfold record at h
  split at h
  · rename_i db3 hins
    cases h
    obtain ⟨h1, h2, h3⟩ := insertClickEvent_ok hins
    exact ⟨rfl, h1, h2, h3⟩
  · exact absurd h (by simp)

lemma applySetActive_short_code (i : Nat) (b : Bool) (now : Nat) (l : Link) :
    (applySetActive i b now l).short_code = l.short_code := by
  unfold applySetActive; split <;> rfl

lemma applySetActive_id (i : Nat) (b : Bool) (now : Nat) (l : Link) :
    (applySetActive i b now l).id = l.id := by
  unfold applySetActive; split <;> rfl

lemma applySetActive_created_at (i : Nat) (b : Bool) (now : Nat) (l : Link) :
    (applySetActive i b now l).created_at = l.created_at := by
  unfold applySetActive; split <;> rfl

lemma applyUpdateUrl_short_code (i : Nat) (u : String) (now : Nat) (l : Link) :
    (applyUpdateUrl i u now l).short_code = l.short_code := by
  unfold applyUpdateUrl; split <;> rfl

lemma applyUpdateUrl_id (i : Nat) (u : String) (now : Nat) (l : Link) :
    (applyUpdateUrl i u now l).id = l.id := by
  unfold applyUpdateUrl; split <;> rfl

lemma applyUpdateUrl_created_at (i : Nat) (u : String) (now : Nat) (l : Link) :
    (applyUpdateUrl i u now l).created_at = l.created_at := by
  unfold applyUpdateUrl; split <;> rfl

lemma uniqueCodes_append {db : DB} {l : Link} (hu : uniqueCodes db)
    (hc : hasCode db l.short_code = false) :
    (db.links ++ [l]).Pairwise (fun a b => a.short_code ≠ b.short_code) := by
  rw [List.pairwise_append]
  refine ⟨hu, by simp, ?_⟩
  intro a ha b hb
  simp only [List.mem_singleton] at hb
  subst hb
  exact code_ne_of_hasCode_eq_false hc a ha

lemma uniqueCodes_map_setActive {db : DB} {i : Nat} {b : Bool} {now : Nat}
    (hu : uniqueCodes db) :
    (db.links.map (applySetActive i b now)).Pairwise
      (fun a c => a.short_code ≠ c.short_code) := by
  rw [List.pairwise_map]
  refine hu.imp ?_
  intro a c hac
  simpa [applySetActive_short_code] using hac

lemma uniqueCodes_map_updateUrl {db : DB} {i : Nat} {u : String} {now : Nat}
    (hu : uniqueCodes db) :
    (db.links.map (applyUpdateUrl i u now)).Pairwise
      (fun a c => a.short_code ≠ c.short_code) := by
  rw [List.pairwise_map]
  refine hu.imp ?_
  intro a c hac
  simpa [applyUpdateUrl_short_code] using hac

/-- The schema constraints preserve both invariants along every operation:
states reachable from the empty database have pairwise-distinct short
codes and no dangling click events. -/
lemma reachable_inv : ∀ db, Reachable db → uniqueCodes db ∧ refIntegrity db := by
  intro db h
  induction h with
  | empty =>
      constructor
      · simp [uniqueCodes]
      · intro e he; simp at he
  | insertLink h hop ih =>
      obtain ⟨hl, he, hc, _⟩ := insertLink_ok hop
      constructor
      · unfold uniqueCodes
        rw [hl]
        exact uniqueCodes_append ih.1 hc
      · intro e hev
        rw [he] at hev
        obtain ⟨w, hw, hid⟩ := ih.2 e hev
        exact ⟨w, by rw [hl]; exact List.mem_append_left _ hw, hid⟩
  | insertClickEvent h hop ih =>
      obtain ⟨hl, he, hfk⟩ := insertClickEvent_ok hop
      constructor
      · unfold uniqueCodes; rw [hl]; exact ih.1
      · intro e hev
        rw [he, List.mem_append] at hev
        rcases hev with hev | hev
        · obtain ⟨w, hw, hid⟩ := ih.2 e hev
          exact ⟨w, by rw [hl]; exact hw, hid⟩
        · simp only [List.mem_singleton] at hev
          subst hev
          obtain ⟨w, hw, hid⟩ := exists_of_hasId_eq_true hfk
          exact ⟨w, by rw [hl]; exact hw, hid⟩
  | create h hop ih =>
      obtain ⟨hldef, hins, _, _⟩ := create_ok hop
      obtain ⟨hl, he, hc, _⟩ := insertLink_ok hins
      constructor
      · unfold uniqueCodes; rw [hl]; exact uniqueCodes_append ih.1 hc
      · intro e hev
        rw [he] at hev
        obtain ⟨w, hw, hid⟩ := ih.2 e hev
        exact ⟨w, by rw [hl]; exact List.mem_append_left _ hw, hid⟩
  | setActive h hop ih =>
      rename_i db0 db2 la ia ba nowa
      obtain ⟨l0, hfind, hldef, hl, he⟩ := setActive_ok hop
      constructor
      · unfold uniqueCodes; rw [hl]; exact uniqueCodes_map_setActive ih.1
      · intro e hev
        rw [he] at hev
        obtain ⟨w, hw, hid⟩ := ih.2 e hev
        refine ⟨applySetActive ia ba nowa w, ?_, ?_⟩
        · rw [hl]; exact List.mem_map_of_mem _ hw
        · rw [applySetActive_id]; exact hid
  | update_url h hop ih =>
      rename_i db0 db2 la ia ua nowa
      obtain ⟨l0, hfind, hldef, hl, he⟩ := update_url_ok hop
      constructor
      · unfold uniqueCodes; rw [hl]; exact uniqueCodes_map_updateUrl ih.1
      · intro e hev
        rw [he] at hev
        obtain ⟨w, hw, hid⟩ := ih.2 e hev
        refine ⟨applyUpdateUrl ia ua nowa w, ?_, ?_⟩
        · rw [hl]; exact List.mem_map_of_mem _ hw
        · rw [applyUpdateUrl_id]; exact hid
  | delete h hop ih =>
      obtain ⟨hl, he, _⟩ := delete_ok hop
      constructor
      · unfold uniqueCodes; rw [hl]
        exact List.Pairwise.sublist (List.filter_sublist _) ih.1
      · intro e hev
        rw [he, List.mem_filter] at hev
        obtain ⟨hev, hne⟩ := hev
        obtain ⟨w, hw, hid⟩ := ih.2 e hev
        refine ⟨w, ?_, hid⟩
        rw [hl, List.mem_filter]
        refine ⟨hw, ?_⟩
        rw [hid]
        exact hne
  | record h hop ih =>
      obtain ⟨hedef, hl, he, hfk⟩ := record_ok hop
      constructor
      · unfold uniqueCodes; rw [hl]; exact ih.1
      · intro e hev
        rw [he, List.mem_append] at hev
        rcases hev with hev | hev
        · obtain ⟨w, hw, hid⟩ := ih.2 e hev
          exact ⟨w, by rw [hl]; exact hw, hid⟩
        · simp only [List.mem_singleton] at hev
          subst hev
          obtain ⟨w, hw, hid⟩ := exists_of_hasId_eq_true hfk
          refine ⟨w, by rw [hl]; exact hw, ?_⟩
          rw [hedef]
          exact hid

/-! ## Concrete fixtures used by witness theorems -/

def wLinkA : Link := ⟨0, "aaa", "https://a.example", true, false, 1, 1⟩

def wLinkB : Link := ⟨1, "bbb", "https://b.example", true, true, 2, 2⟩

def wDB1 : DB := ⟨[wLinkA], []⟩

def wDB2 : DB := ⟨[wLinkA, wLinkB], []⟩

def wDB3 : DB := ⟨[wLinkA], [⟨100, 0, 5, none, none⟩]⟩

/-- Claim C1: at every reachable state the stored links have pairwise
distinct short codes, independently of `is_active`; and while a row with a
given code exists (active or disabled), `create` with that code can never
succeed, so the code cannot be reused. -/
theorem shortCode_unique_of_reachable :
    (∀ db, Reachable db → ∀ l1 ∈ db.links, ∀ l2 ∈ db.links,
        l1 ≠ l2 → l1.short_code ≠ l2.short_code) ∧
    (∀ db i c u b now, hasCode db c = true →
        ∀ db2 l, create db i c u b now ≠ Except.ok (db2, l)) := by
  constructor
  · intro db h l1 h1 l2 h2 hne
    have hu := (reachable_inv db h).1
    exact List.Pairwise.forall (fun _ _ hab => Ne.symm hab) hu h1 h2 hne
  · intro db i c u b now hc db2 l h
    obtain ⟨hldef, hins, _, _⟩ := create_ok h
    have hfalse := (insertLink_ok hins).2.2.1
    rw [hldef] at hfalse
    simp only at hfalse
    rw [hc] at hfalse
    exact Bool.true_eq_false.mp hfalse

/-- Witness for C1: a concrete two-link reachable state; the two codes
differ. -/
theorem shortCode_unique_of_reachable_witness :
    wLinkA.short_code ≠ wLinkB.short_code :=
  shortCode_unique_of_reachable.1 wDB2
    (Reachable.insertLink
      (Reachable.insertLink Reachable.empty
        (show insertLink ⟨[], []⟩ wLinkA = Except.ok wDB1 from rfl))
      (show insertLink wDB1 wLinkB = Except.ok wDB2 from rfl))
    wLinkA (by simp [wDB2]) wLinkB (by simp [wDB2]) (by decide)

/-- Claim C2: deleting a link removes, in the same step, every click event
referencing it, so no such event remains and the aggregate count for the
deleted id is zero; and at every reachable state each click event
references an existing link. -/
theorem delete_cascades_and_refIntegrity :
    (∀ db i db2, delete db i = Except.ok db2 →
        (∀ e ∈ db2.clickEvents, e.link_id ≠ i) ∧ clickCount db2 i = 0) ∧
    (∀ db, Reachable db → refIntegrity db) := by
  constructor
  · intro db i db2 h
    obtain ⟨hl, he, _⟩ := delete_ok h
    constructor
    · intro e hev
      rw [he, List.mem_filter] at hev
      simpa using hev.2
    · unfold clickCount
      rw [he]
      rw [List.length_eq_zero, List.filter_eq_nil_iff]
      intro e hev
      rw [List.mem_filter] at hev
      simpa using hev.2
  · intro db h
    exact (reachable_inv db h).2

/-- Witness for C2: deleting the only link of a concrete store leaves no
click events and a zero click count for its id. -/
theorem delete_cascades_and_refIntegrity_witness :
    clickCount (DB.mk [] []) 0 = 0 :=
  (delete_cascades_and_refIntegrity.1 wDB3 0 (DB.mk [] []) rfl).2

/-- Counterexample to C3: the seed script stores the link `"gh"`, whose
short code has length 2, so not every stored link satisfies the 3-32
format rule; the seeded store violates the claimed lower bound. -/
theorem seed_violates_min_code_length :
    (seed 10000000).links.all (fun l => validShortCode l.short_code) = false ∧
    (seed 10000000).links.any
      (fun l => l.short_code == "gh" && decide (l.short_code.length < 3)) = true := by
  constructor
  · decide
  · decide

/-- Claim C3 as amended: every link stored by the seed script has a short
code of length between 2 and 32 over the charset {A-Z, a-z, 0-9, hyphen,
underscore}; links created through the validated `create` path satisfy the
full 3-32 rule. -/
theorem seed_codes_bounds_amended :
    ((seed 10000000).links.all (fun l =>
        decide (2 ≤ l.short_code.length) && decide (l.short_code.length ≤ 32) &&
        l.short_code.toList.all shortCodeCharOk) = true) ∧
    (∀ db i c u b now db2 l, create db i c u b now = Except.ok (db2, l) →
        validShortCode l.short_code = true) := by
  constructor
  · decide
  · intro db i c u b now db2 l h
    obtain ⟨hldef, _, _, hv⟩ := create_ok h
    rw [hldef]
    exact hv

def wLinkC : Link := ⟨0, "abc", "https://example.com", true, true, 5, 5⟩

def wDBc : DB := ⟨[wLinkC], []⟩

/-- Witness for C3 (amended part): a concrete successful `create` yields a
valid short code. -/
theorem seed_codes_bounds_amended_witness :
    validShortCode wLinkC.short_code = true :=
  seed_codes_bounds_amended.2 ⟨[], []⟩ 0 "abc" "https://example.com" true 5
    wDBc wLinkC rfl

/-- Claim C4: `create` with an empty `original_url` fails with
`ValidationError` (returning no stored row), and every successful creation
stores a non-empty `original_url`. -/
theorem create_rejects_empty_url :
    (∀ db i c b now,
        create db i c "" b now = Except.error StoreError.validationError) ∧
    (∀ db i c u b now db2 l, create db i c u b now = Except.ok (db2, l) →
        l.original_url = u ∧ u ≠ "" ∧ l ∈ db2.links) := by
  constructor
  · intro db i c b now
    rfl
  · intro db i c u b now db2 l h
    obtain ⟨hldef, hins, hne, _⟩ := create_ok h
    obtain ⟨hl, _, _, _⟩ := insertLink_ok hins
    refine ⟨by rw [hldef], hne, ?_⟩
    rw [hl]
    exact List.mem_append_right _ (by simp)

/-- Witness for C4: a concrete successful creation stores its URL. -/
theorem create_rejects_empty_url_witness :
    wLinkC.original_url = "https://example.com" ∧
      "https://example.com" ≠ "" ∧ wLinkC ∈ wDBc.links :=
  create_rejects_empty_url.2 ⟨[], []⟩ 0 "abc" "https://example.com" true 5
    wDBc wLinkC rfl

lemma find_code_map_setActive {links : List Link} {i : Nat} {b : Bool}
    {now : Nat} {l0 : Link}
    (hpw : links.Pairwise (fun a c => a.short_code ≠ c.short_code))
    (hfind : links.find? (fun x => x.id == i) = some l0) :
    (links.map (applySetActive i b now)).find?
        (fun x => x.short_code == l0.short_code)
      = some (applySetActive i b now l0) := by
  induction links with
  | nil => simp at hfind
  | cons x xs ih =>
      by_cases hx : (x.id == i) = true
      · rw [List.find?_cons_of_pos (p := fun x : Link => x.id == i) xs hx] at hfind
        have hx0 : x = l0 := by simpa using hfind
        subst hx0
        rw [List.map_cons]
        rw [List.find?_cons_of_pos]
        simp [applySetActive_short_code]
      · rw [List.find?_cons_of_neg (p := fun x : Link => x.id == i) xs
            (by simpa using hx)] at hfind
        have hmem : l0 ∈ xs := List.mem_of_find?_eq_some hfind
        have hxl0 : x.short_code ≠ l0.short_code :=
          (List.pairwise_cons.mp hpw).1 l0 hmem
        rw [List.map_cons]
        rw [List.find?_cons_of_neg]
        · exact ih (List.pairwise_cons.mp hpw).2 hfind
        · simp [applySetActive_short_code, hxl0]

/-- Claim C5: disabling a link leaves its row and its entire click history
in place: the same number of link rows remain, `resolve` on its short code
still returns the (now inactive) record, and the aggregate count and the
recent-clicks query over its history are unchanged. -/
theorem disable_preserves_link_and_history :
    ∀ db i now db2 l, uniqueCodes db →
      disable db i now = Except.ok (db2, l) →
      resolve db2 l.short_code = Except.ok l ∧
      db2.clickEvents = db.clickEvents ∧
      (∀ lid n, clickCount db2 lid = clickCount db lid ∧
          recentClicks db2 lid n = recentClicks db lid n) ∧
      l ∈ db2.links ∧ l.is_active = false ∧
      db2.links.length = db.links.length := by
  intro db i now db2 l hu h
  obtain ⟨l0, hfind, hldef, hl, he⟩ := setActive_ok h
  have hid0 : (l0.id == i) = true :=
    List.find?_some (p := fun x : Link => x.id == i) hfind
  have happ : applySetActive i false now l0 = l := by
    unfold applySetActive
    rw [hid0]
    simp [hldef]
  have hcode : l.short_code = l0.short_code := by rw [hldef]
  refine ⟨?_, he, ?_, ?_, ?_, ?_⟩
  · unfold resolve
    rw [hl, hcode, find_code_map_setActive hu hfind, happ]
  · intro lid n
    constructor
    · unfold clickCount; rw [he]
    · unfold recentClicks; rw [he]
  · rw [hl, ← happ]
    exact List.mem_map_of_mem _ (List.mem_of_find?_eq_some hfind)
  · rw [hldef]
  · rw [hl, List.length_map]

def wLinkAd : Link := ⟨0, "aaa", "https://a.example", false, false, 1, 9⟩

def wDBd : DB := ⟨[wLinkAd], []⟩

/-- Witness for C5: disabling the only link of a concrete store keeps it
resolvable by its code, inactive. -/
theorem disable_preserves_link_and_history_witness :
    resolve wDBd wLinkAd.short_code = Except.ok wLinkAd :=
  (disable_preserves_link_and_history wDB1 0 9 wDBd wLinkAd
    (by simp [uniqueCodes, wDB1]) rfl).1

/-- Counterexample to C6: running the seed script at server time 10000000
stores a click event whose `clicked_at` is the caller-computed backdated
value 9996400 (one hour earlier), not the moment of recording — so not
every recorded click event gets a server-assigned timestamp. -/
theorem seed_clickedAt_caller_supplied :
    ((seed 10000000).clickEvents.find? (fun e => e.id == 100)).map
        (fun e => e.clicked_at) = some 9996400 ∧
    (seed 10000000).clickEvents.any
        (fun e => !(e.clicked_at == 10000000)) = true := by
  constructor
  · decide
  · decide

/-- Claim C6 as amended: every click event recorded through the Click
Recorder's `record` operation has its `clicked_at` assigned from the
recorder's clock at the moment of recording — `record` accepts no
caller-supplied timestamp; the seed script, administrative tooling
explicitly exempted for backdated fixtures, writes events directly with
backdated timestamps. -/
theorem record_sets_clickedAt_server_side :
    ∀ db nid lid ip ua now db2 e,
      record db nid lid ip ua now = Except.ok (db2, e) →
      e.clicked_at = now ∧ e = ⟨nid, lid, now, ip, ua⟩ ∧
      db2.clickEvents = db.clickEvents ++ [e] := by
  intro db nid lid ip ua now db2 e h
  obtain ⟨hedef, _, he, _⟩ := record_ok h
  exact ⟨by rw [hedef], hedef, he⟩

/-- Witness for C6 (amended part): a concrete recording stamps the
server clock value. -/
theorem record_sets_clickedAt_server_side_witness :
    (ClickEvent.mk 100 0 7 (some "203.0.113.42") none).clicked_at = 7 :=
  (record_sets_clickedAt_server_side wDB1 100 0 (some "203.0.113.42") none 7
    (DB.mk [wLinkA] [⟨100, 0, 7, some "203.0.113.42", none⟩])
    ⟨100, 0, 7, some "203.0.113.42", none⟩ rfl).1

lemma mem_insertByTime {a e : ClickEvent} :
    ∀ {l : List ClickEvent}, a ∈ insertByTime e l ↔ a = e ∨ a ∈ l := by
  intro l
  induction l with
  | nil => simp [insertByTime]
  | cons x xs ih =>
      unfold insertByTime
      split
      · simp
      · simp only [List.mem_cons, ih]
        tauto

lemma length_insertByTime (e : ClickEvent) :
    ∀ (l : List ClickEvent), (insertByTime e l).length = l.length + 1 := by
  intro l
  induction l with
  | nil => rfl
  | cons x xs ih =>
      unfold insertByTime
      split
      · simp
      · simp only [List.length_cons, ih]

lemma mem_sortByTimeDesc {a : ClickEvent} :
    ∀ {l : List ClickEvent}, a ∈ sortByTimeDesc l ↔ a ∈ l := by
  intro l
  induction l with
  | nil => simp [sortByTimeDesc]
  | cons x xs ih =>
      unfold sortByTimeDesc
      rw [mem_insertByTime]
      simp [ih]

lemma length_sortByTimeDesc :
    ∀ (l : List ClickEvent), (sortByTimeDesc l).length = l.length := by
  intro l
  induction l with
  | nil => rfl
  | cons x xs ih =>
      unfold sortByTimeDesc
      rw [length_insertByTime, ih, List.length_cons]

lemma recentClicks_all (db : DB) (lid : Nat) :
    recentClicks db lid (clickCount db lid) =
      sortByTimeDesc (db.clickEvents.filter (fun e => e.link_id == lid)) := by
  unfold recentClicks clickCount
  rw [← length_sortByTimeDesc, List.take_length]

/-- Claim C7: a click may be recorded with both `ip_address` and
`user_agent` absent; the recorded event carries `none` in both fields
(never an empty-string stand-in), the recent-clicks query scoped to its
link returns it with those fields still absent, and every event that query
returns is a stored event passed through unchanged. -/
theorem anonymous_click_fields_absent :
    ∀ db nid lid now db2 e,
      record db nid lid none none now = Except.ok (db2, e) →
      e.ip_address = none ∧ e.user_agent = none ∧
      e ∈ recentClicks db2 lid (clickCount db2 lid) ∧
      ∀ x ∈ recentClicks db2 lid (clickCount db2 lid), x ∈ db2.clickEvents := by
  intro db nid lid now db2 e h
  obtain ⟨hedef, _, he, _⟩ := record_ok h
  have hlid : e.link_id = lid := by rw [hedef]
  refine ⟨by rw [hedef], by rw [hedef], ?_, ?_⟩
  · rw [recentClicks_all, mem_sortByTimeDesc, List.mem_filter]
    refine ⟨?_, by simp [hlid]⟩
    rw [he]
    exact List.mem_append_right _ (by simp)
  · intro x hx
    rw [recentClicks_all, mem_sortByTimeDesc, List.mem_filter] at hx
    exact hx.1

/-- Witness for C7: one concrete anonymous recording is returned by the
recent-clicks query with both optional fields absent. -/
theorem anonymous_click_fields_absent_witness :
    (ClickEvent.mk 100 0 7 none none) ∈
      recentClicks (DB.mk [wLinkA] [⟨100, 0, 7, none, none⟩]) 0
        (clickCount (DB.mk [wLinkA] [⟨100, 0, 7, none, none⟩]) 0) :=
  (anonymous_click_fields_absent wDB1 100 0 7
    (DB.mk [wLinkA] [⟨100, 0, 7, none, none⟩]) ⟨100, 0, 7, none, none⟩
    rfl).2.2.1

/-- Claim C8: the report's status is `"healthy"` exactly when every
performed check is `"ok"`; the database check is `"ok"` exactly when the
`SELECT 1` round trip succeeds; and the `/health` endpoint returns 200
when healthy and 503 otherwise. -/
theorem health_status_iff_checks_ok :
    ∀ (select1 : Except String Unit) (rc : Option RedisClient) (now : Nat),
      ((get_health_status_async select1 rc now).status = "healthy" ↔
        (get_health_status_async select1 rc now).checks.all
          (fun p => p.2 == "ok") = true) ∧
      ((get_health_status_async select1 rc now).checks.lookup "database" =
          some "ok" ↔ select1 = Except.ok ()) ∧
      (healthEndpointStatusCode select1 rc now =
        if (get_health_status_async select1 rc now).status = "healthy"
        then 200 else 503) := by
  intro select1 rc now
  cases select1 with
  | ok u =>
      cases u
      cases rc with
      | none =>
          simp [get_health_status_async, check_database, health_check,
            check_redis, healthEndpointStatusCode]
      | some c =>
          obtain ⟨p⟩ := c
          cases p with
          | ok v =>
              cases v
              simp [get_health_status_async, check_database, health_check,
                check_redis, healthEndpointStatusCode]
          | error m =>
              simp [get_health_status_async, check_database, health_check,
                check_redis, healthEndpointStatusCode]
  | error m =>
      cases rc with
      | none =>
          simp [get_health_status_async, check_database, health_check,
            check_redis, healthEndpointStatusCode]
      | some c =>
          obtain ⟨p⟩ := c
          cases p with
          | ok v =>
              cases v
              simp [get_health_status_async, check_database, health_check,
                check_redis, healthEndpointStatusCode]
          | error m2 =>
              simp [get_health_status_async, check_database, health_check,
                check_redis, healthEndpointStatusCode]

lemma map_created_at_setActive (i : Nat) (b : Bool) (now : Nat) :
    ∀ ls : List Link,
      (ls.map (applySetActive i b now)).map Link.created_at =
        ls.map Link.created_at := by
  intro ls
  induction ls with
  | nil => rfl
  | cons x xs ih => simp only [List.map_cons, applySetActive_created_at, ih]

lemma map_created_at_updateUrl (i : Nat) (u : String) (now : Nat) :
    ∀ ls : List Link,
      (ls.map (applyUpdateUrl i u now)).map Link.created_at =
        ls.map Link.created_at := by
  intro ls
  induction ls with
  | nil => rfl
  | cons x xs ih => simp only [List.map_cons, applyUpdateUrl_created_at, ih]

/-- Claim C9: `created_at` is set at insert and never changed by any
mutation — the per-row `created_at` column is identical before and after
`disable`, `enable` and `update_url` — while each of those mutations
stamps `updated_at` with the current time, as does the insert itself. -/
theorem createdAt_immutable_updatedAt_bumped :
    (∀ db i c u b now db2 l, create db i c u b now = Except.ok (db2, l) →
        l.created_at = now ∧ l.updated_at = now) ∧
    (∀ db i now db2 l, disable db i now = Except.ok (db2, l) →
        db2.links.map Link.created_at = db.links.map Link.created_at ∧
        l.updated_at = now ∧ l ∈ db2.links) ∧
    (∀ db i now db2 l, enable db i now = Except.ok (db2, l) →
        db2.links.map Link.created_at = db.links.map Link.created_at ∧
        l.updated_at = now ∧ l ∈ db2.links) ∧
    (∀ db i u now db2 l, update_url db i u now = Except.ok (db2, l) →
        db2.links.map Link.created_at = db.links.map Link.created_at ∧
        l.updated_at = now) := by
  refine ⟨?_, ?_, ?_, ?_⟩
  · intro db i c u b now db2 l h
    obtain ⟨hldef, _, _, _⟩ := create_ok h
    exact ⟨by rw [hldef], by rw [hldef]⟩
  · intro db i now db2 l h
    obtain ⟨l0, hfind, hldef, hl, _⟩ := setActive_ok h
    have hid0 : (l0.id == i) = true :=
      List.find?_some (p := fun x : Link => x.id == i) hfind
    have happ : applySetActive i false now l0 = l := by
      unfold applySetActive
      rw [hid0]
      simp [hldef]
    refine ⟨by rw [hl, map_created_at_setActive], by rw [hldef], ?_⟩
    rw [hl, ← happ]
    exact List.mem_map_of_mem _ (List.mem_of_find?_eq_some hfind)
  · intro db i now db2 l h
    obtain ⟨l0, hfind, hldef, hl, _⟩ := setActive_ok h
    have hid0 : (l0.id == i) = true :=
      List.find?_some (p := fun x : Link => x.id == i) hfind
    have happ : applySetActive i true now l0 = l := by
      unfold applySetActive
      rw [hid0]
      simp [hldef]
    refine ⟨by rw [hl, map_created_at_setActive], by rw [hldef], ?_⟩
    rw [hl, ← happ]
    exact List.mem_map_of_mem _ (List.mem_of_find?_eq_some hfind)
  · intro db i u now db2 l h
    obtain ⟨l0, hfind, hldef, hl, _⟩ := update_url_ok h
    exact ⟨by rw [hl, map_created_at_updateUrl], by rw [hldef]⟩

/-- Witness for C9: a concrete disable stamps `updated_at` with the
mutation time. -/
theorem createdAt_immutable_updatedAt_bumped_witness :
    wLinkAd.updated_at = 9 :=
  (createdAt_immutable_updatedAt_bumped.2.1 wDB1 0 9 wDBd wLinkAd rfl).2.1

/-- Claim C10: the database health check is total — it returns `true`
exactly on a successful probe and `false` exactly when the backing store
raises, never propagating the failure; a `false` check degrades the
overall status. -/
theorem health_check_total_never_raises :
    ∀ select1 : Except String Unit,
      (health_check select1 = true ↔ select1 = Except.ok ()) ∧
      (health_check select1 = false ↔ ∃ m, select1 = Except.error m) ∧
      (health_check select1 = false →
        (get_health_status_async select1 none 0).status = "degraded") := by
  intro select1
  cases select1 with
  | ok u =>
      cases u
      simp [health_check, get_health_status_async, check_database, check_redis]
  | error m =>
      simp [health_check, get_health_status_async, check_database, check_redis]

/-- Witness for C10: a concrete store failure yields a degraded report. -/
theorem health_check_total_never_raises_witness :
    (get_health_status_async (Except.error "db down") none 0).status =
      "degraded" :=
  (health_check_total_never_raises (Except.error "db down")).2.2 rfl
